import Mathlib

/-!
Verification of the ac-calc earning engine (src/ac_calc/airlines/Dunderinit.py).

The Python source is shallowly embedded:
  * numbers are modelled as rationals where the data is plain decimal data
    (recorded distances, coordinates, rates, status values) and as reals in
    the computation path, because the haversine branch uses transcendental
    functions;
  * Python None is modelled by Option;
  * Python truthiness (the walrus test on a record object, the two uses of
    the or operator, and the falsy-distance test) is modelled explicitly;
  * a Python TypeError raised by multiplying a float with a dict is modelled
    by an Option result of the calculator (none means the call raises).
-/

/-- Value stored in an earning-rate table: either a numeric multiplier or a
nested table (the shipped Air Canada table stores nested dicts). -/
inductive RateVal where
  | num (r : ℚ)
  | table (t : List (String × RateVal))

/-- Python truthiness of a rate-table value: a number is truthy iff nonzero,
a dict is truthy iff nonempty. -/
def RateVal.pyTruthy : RateVal → Bool
  | .num r => r != 0
  | .table t => !t.isEmpty

/-- Numeric view of a rate value; none models the TypeError raised when the
source multiplies a distance by a dict-valued rate. -/
def RateVal.toNum : RateVal → Option ℚ
  | .num r => some r
  | .table _ => none

/-- Python expression `a or b` where `a` is the result of dict.get (a value
or None) and `b` is already a value: returns `a` when truthy, else `b`. -/
def pyOr (a : Option RateVal) (b : RateVal) : RateVal :=
  match a with
  | some v => if v.pyTruthy then v else b
  | none => b

/-- Python expression `a or b` on two optional numbers (line 42 of the
source: `distance.distance or distance.old_distance`): a present nonzero
number is truthy; None and 0 are falsy. -/
def pyOrD (a b : Option ℚ) : Option ℚ :=
  match a with
  | some x => if x == 0 then b else some x
  | none => b

/-- Modelled from the spec: DistanceRecord (the class lives in
ac_calc.locations, which is not part of the supplied sources). Destination
code, a current recorded distance that may be absent, and a legacy recorded
distance that may be absent. -/
structure DistanceRecord where
  destination : String
  distance : Option ℚ
  old_distance : Option ℚ
deriving Repr, DecidableEq

/-- Modelled from the spec: Airport (the class lives in ac_calc.locations,
which is not part of the supplied sources). Identity code, coordinates in
degrees, and a mapping from destination code to DistanceRecord. -/
structure Airport where
  iata_code : String
  latitude : ℚ
  longitude : ℚ
  distances : List (String × DistanceRecord)
deriving Repr, DecidableEq

/-- Modelled from the spec: FareBrand (ac_calc.aeroplan, not part of the
supplied sources). Name and permitted fare classes. -/
structure FareBrand where
  name : String
  fare_classes : List String
deriving Repr, DecidableEq

/-- Modelled from the spec: AeroplanStatus (ac_calc.aeroplan, not part of
the supplied sources). Name, bonus multiplier and minimum-earning floor,
with the attribute names used by the airlines module. -/
structure AeroplanStatus where
  name : String
  bonus_factor : ℚ
  min_earning_value : ℚ
deriving Repr, DecidableEq

/-- Airline dataclass (source lines 20-31). The logo field is optional
because the shipped Air Canada value passes None for it. -/
structure Airline where
  id : String
  name : String
  region : String
  website : String
  logo : Option String
  star_alliance_member : Bool
  earns_app : Bool
  earns_sqm : Bool
  earning_rates : List (String × RateVal)

/-- SegmentCalculation named tuple (source lines 12-16). The distance field
is optional because the source can store Python None there (a record whose
two distances are both absent); the two rate fields hold whatever value the
rate lookup produced. -/
structure SegmentCalculation where
  distance : Option ℝ
  app : ℤ
  app_earning_rate : RateVal
  app_bonus_factor : ℚ
  app_bonus : ℤ
  sqm : ℤ
  sqm_earning_rate : RateVal

/-- EarthRadiusMi constant (source line 17). -/
def EarthRadiusMi : ℝ := 3959.0

/-- math.radians: degrees to radians. -/
noncomputable def radians (x : ℝ) : ℝ := x * Real.pi / 180

/-- Haversine branch of Airline.Dunderdistance (source lines 44-52),
transcribed term by term. -/
noncomputable def haversine (origin destination : Airport) : ℝ :=
  let d_lat := radians ((destination.latitude : ℝ) - (origin.latitude : ℝ))
  let d_lon := radians ((destination.longitude : ℝ) - (origin.longitude : ℝ))
  let origin_lat := radians (origin.latitude : ℝ)
  let destination_lat := radians (destination.latitude : ℝ)
  let a := (Real.sin (d_lat / 2)) ^ 2
    + (Real.sin (d_lon / 2)) ^ 2 * Real.cos origin_lat * Real.cos destination_lat
  let c := 2 * Real.arcsin (Real.sqrt a)
  EarthRadiusMi * c

/-- Airline.Dunderdistance (source lines 36-52). The walrus test on
origin.distances.get is true exactly when a record exists, because a
record object is always truthy in Python; when it exists the source
returns `record.distance or record.old_distance`, which can be Python
None (modelled as none); otherwise the haversine distance is returned.
The method ignores self, so it is embedded as a plain function. -/
noncomputable def Airline.distanceOf (origin destination : Airport) : Option ℝ :=
  match List.lookup destination.iata_code origin.distances with
  | some dr => (pyOrD dr.distance dr.old_distance).map (fun q => (q : ℝ))
  | none => some (haversine origin destination)

/-- Rate lookup expression shared by source lines 67 and 72:
`self.earning_rates.get(fare_class, None) or
 self.earning_rates.get(fare_brand.name, 0)`. -/
def resolveRate (a : Airline) (fare_class : String) (brand_name : String) : RateVal :=
  pyOr (List.lookup fare_class a.earning_rates)
    ((List.lookup brand_name a.earning_rates).getD (.num 0))

/-- Truncation toward zero, the behaviour of Python int() on a float. -/
noncomputable def truncToZero (x : ℝ) : ℤ :=
  if 0 ≤ x then ⌊x⌋ else ⌈x⌉

/-- Conditional earning expression of source lines 69 and 73:
`max(distance * rate, aeroplan_status.min_earning_value) if flag else 0`.
The result is none when the multiplication raises a TypeError because the
rate is a dict; when the flag is unset no multiplication happens, so no
error can occur. -/
noncomputable def earnSide (flag : Bool) (distance : ℝ) (rate : RateVal)
    (floorv : ℚ) : Option ℝ :=
  if flag then rate.toNum.map (fun r => max (distance * (r : ℝ)) ((floorv : ℚ) : ℝ))
  else some 0

/-- Airline.calculate (source lines 54-83). A none result models the call
raising a Python exception; every other outcome is the returned
SegmentCalculation. The falsy-distance early return of lines 64-65 fires
when the resolved distance is Python None or 0. -/
noncomputable def Airline.calculate (a : Airline) (origin destination : Airport)
    (fare_brand : FareBrand) (fare_class : String) (ticket_number : String)
    (aeroplan_status : AeroplanStatus) : Option SegmentCalculation :=
  match Airline.distanceOf origin destination with
  | none => some ⟨none, 0, .num 0, 0, 0, 0, .num 0⟩
  | some distance =>
    if distance = 0 then
      some ⟨some distance, 0, .num 0, 0, 0, 0, .num 0⟩
    else
      match earnSide a.earns_app distance (resolveRate a fare_class fare_brand.name)
          aeroplan_status.min_earning_value with
      | none => none
      | some app =>
        match earnSide a.earns_sqm distance (resolveRate a fare_class fare_brand.name)
            aeroplan_status.min_earning_value with
        | none => none
        | some sqm =>
          some ⟨some distance, truncToZero app,
            resolveRate a fare_class fare_brand.name,
            aeroplan_status.bonus_factor,
            truncToZero (min app distance * (aeroplan_status.bonus_factor : ℝ)),
            truncToZero sqm,
            resolveRate a fare_class fare_brand.name⟩

/-- Fare classes of the wildcard group of one region of the shipped Air
Canada earning-rate table (source lines 111-149; the three regions carry
the same class names, with Basic and Standard differing by region). -/
def acClassRates (basic standard : ℚ) : List (String × RateVal) :=
  [("Basic", .num basic),
   ("Standard", .num standard),
   ("Flex", .num 1.0),
   ("Comfort", .num 1.15),
   ("Latitude", .num 1.25),
   ("Premium Economy (Lowest)", .num 1.25),
   ("Premium Economy (Flexible)", .num 1.25),
   ("Business (Lowest)", .num 1.50),
   ("Business (Flexible)", .num 1.50)]

/-- AirCanada value (source lines 101-151): the shipped default airline,
whose earning-rate table is keyed by region names with nested wildcard
groups rather than by fare class or brand name. -/
def AirCanada : Airline :=
  { id := "air-canada",
    name := "Air Canada",
    region := "Canada & U.S.",
    website := "http://www.aircanda.com",
    logo := none,
    star_alliance_member := true,
    earns_app := true,
    earns_sqm := true,
    earning_rates :=
      [("Domestic", .table [("*", .table (acClassRates 0.10 0.25))]),
       ("Transborder", .table [("*", .table (acClassRates 0.25 0.50))]),
       ("International", .table [("*", .table (acClassRates 0.25 0.50))])] }

/-- Region keys of the shipped Air Canada earning-rate table. -/
def regionKeys : List String := ["Domestic", "Transborder", "International"]

/-- Python duck-typed values an Airline can be compared against: another
Airline, an int, or a str. -/
inductive PyVal where
  | airline (a : Airline)
  | int (n : ℤ)
  | str (s : String)

/-- Attribute access `other.id`; none models an AttributeError because the
value has no id attribute. -/
def PyVal.idAttr : PyVal → Option String
  | .airline a => some a.id
  | .int _ => none
  | .str _ => none

/-- Airline.Dundereq (source lines 33-34): `return self.id == other.id`,
an unguarded attribute access on the right operand. An error result models
the AttributeError Python raises when the operand has no id attribute. -/
def Airline.eqPy (a : Airline) (other : PyVal) : Except String Bool :=
  match other.idAttr with
  | some i => Except.ok (a.id == i)
  | none => Except.error "AttributeError"

/-! Shared helper lemmas. -/

lemma mem_of_lookup_eq_some {β : Type} {k : String} {v : β} :
    ∀ {l : List (String × β)}, List.lookup k l = some v → (k, v) ∈ l := by
  intro l
  induction l with
  | nil => intro h; simp [List.lookup] at h
  | cons p t ih =>
    intro h
    rw [List.lookup] at h
    rcases p with ⟨a, b⟩
    by_cases hk : k == a
    · simp [hk] at h
      subst h
      simp only [beq_iff_eq] at hk
      subst hk
      exact List.mem_cons_self _ _
    · simp [hk] at h ⊢
      right
      exact ih h

lemma truncToZero_zero : truncToZero 0 = 0 := by
  simp [truncToZero]

/-- Central unfolding lemma for Airline.calculate on a nonzero resolved
distance and a numeric resolved rate: spells out every field of the
returned SegmentCalculation. -/
lemma calculate_eq_some (a : Airline) (o dst : Airport) (fb : FareBrand)
    (fc tn : String) (st : AeroplanStatus) (d : ℝ) (r : ℚ)
    (hd : Airline.distanceOf o dst = some d) (hd0 : d ≠ 0)
    (hr : resolveRate a fc fb.name = .num r) :
    a.calculate o dst fb fc tn st = some
      ⟨some d,
       truncToZero (if a.earns_app then max (d * (r : ℝ)) ((st.min_earning_value : ℝ)) else 0),
       .num r,
       st.bonus_factor,
       truncToZero ((min (if a.earns_app then max (d * (r : ℝ)) ((st.min_earning_value : ℝ)) else 0) d)
         * ((st.bonus_factor : ℝ))),
       truncToZero (if a.earns_sqm then max (d * (r : ℝ)) ((st.min_earning_value : ℝ)) else 0),
       .num r⟩ := by
  unfold Airline.calculate
  rw [hd]
  simp only [hr, if_neg hd0]
  cases ha : a.earns_app <;> cases hs : a.earns_sqm <;>
    simp [earnSide, RateVal.toNum]

/-! Claim theorems. -/

/-- C1: for a segment with nonzero resolved distance (and a numeric
resolved rate, as the declared data model requires), the points value is
the truncation toward zero of max(distance times rate, the status minimum
earning floor) when the airline earns points, and 0 when it does not; the
floor applies even at rate 0 because the max is taken before the flag test
only zeroes the whole expression. -/
theorem c1_points_truncation (a : Airline) (o dst : Airport) (fb : FareBrand)
    (fc tn : String) (st : AeroplanStatus) (d : ℝ) (r : ℚ)
    (hd : Airline.distanceOf o dst = some d) (hd0 : d ≠ 0)
    (hr : resolveRate a fc fb.name = .num r) :
    (a.calculate o dst fb fc tn st).map SegmentCalculation.app
      = some (if a.earns_app
          then truncToZero (max (d * (r : ℝ)) ((st.min_earning_value : ℝ)))
          else 0) := by
  rw [calculate_eq_some a o dst fb fc tn st d r hd hd0 hr]
  cases ha : a.earns_app <;> simp [ha, truncToZero_zero]

/-- C2: for a segment with nonzero resolved distance (and a numeric
resolved rate), the bonus points value is the truncation toward zero of
min(pre-truncation real-valued points, distance) times the status bonus
factor, where the pre-truncation points are the post-floor real value. -/
theorem c2_bonus_cap (a : Airline) (o dst : Airport) (fb : FareBrand)
    (fc tn : String) (st : AeroplanStatus) (d : ℝ) (r : ℚ)
    (hd : Airline.distanceOf o dst = some d) (hd0 : d ≠ 0)
    (hr : resolveRate a fc fb.name = .num r) :
    (a.calculate o dst fb fc tn st).map SegmentCalculation.app_bonus
      = some (truncToZero
          ((min (if a.earns_app then max (d * (r : ℝ)) ((st.min_earning_value : ℝ)) else 0) d)
            * ((st.bonus_factor : ℝ)))) := by
  rw [calculate_eq_some a o dst fb fc tn st d r hd hd0 hr]
  simp

/-- Concrete airline for the C1 witness: flat numeric rate table. -/
def c1Air : Airline :=
  { id := "w1", name := "W1", region := "", website := "", logo := none,
    star_alliance_member := false, earns_app := true, earns_sqm := true,
    earning_rates := [("J", .num (3/2))] }

/-- Concrete origin airport for the C1 witness, with a recorded distance. -/
def c1Org : Airport := ⟨"AAA", 0, 0, [("BBB", ⟨"BBB", some 1001, none⟩)]⟩

/-- Concrete destination airport for the C1 witness. -/
def c1Dst : Airport := ⟨"BBB", 49, -123, []⟩

/-- Concrete fare brand and status for the C1 witness. -/
def c1Brand : FareBrand := ⟨"NoBrand", []⟩

/-- Concrete status for the C1 witness. -/
def c1St : AeroplanStatus := ⟨"Basic", 1/4, 0⟩

/-- Witness for C1: distance 1001 at rate 3/2 yields real points 1501.5,
truncated toward zero to 1501 (not rounded to 1502). -/
theorem c1_points_truncation_witness :
    (c1Air.calculate c1Org c1Dst c1Brand "J" "014" c1St).map SegmentCalculation.app
      = some 1501 := by
  have hd : Airline.distanceOf c1Org c1Dst = some ((1001 : ℚ) : ℝ) := by
    simp [Airline.distanceOf, c1Org, c1Dst, List.lookup, pyOrD]
  have h := c1_points_truncation c1Air c1Org c1Dst c1Brand "J" "014" c1St
    ((1001 : ℚ) : ℝ) (3/2) hd (by norm_num)
    (by simp [resolveRate, c1Air, c1Brand, pyOr, RateVal.pyTruthy, List.lookup])
  rw [h]
  norm_num [c1Air, c1St, truncToZero]

/-- Concrete airline for the C2 witness. -/
def c2Air : Airline :=
  { id := "w2", name := "W2", region := "", website := "", logo := none,
    star_alliance_member := false, earns_app := true, earns_sqm := true,
    earning_rates := [("K", .num (3/2))] }

/-- Concrete origin airport for the C2 witness. -/
def c2Org : Airport := ⟨"CCC", 0, 0, [("DDD", ⟨"DDD", some 1001, none⟩)]⟩

/-- Concrete destination airport for the C2 witness. -/
def c2Dst : Airport := ⟨"DDD", 0, 10, []⟩

/-- Concrete fare brand for the C2 witness. -/
def c2Brand : FareBrand := ⟨"NoBrand", []⟩

/-- Concrete status for the C2 witness. -/
def c2St : AeroplanStatus := ⟨"25K", 1/4, 0⟩

/-- Witness for C2: real points 1501.5 exceed the distance 1001, so the
bonus is min(1501.5, 1001) times 1/4 = 250.25, truncated to 250. -/
theorem c2_bonus_cap_witness :
    (c2Air.calculate c2Org c2Dst c2Brand "K" "014" c2St).map SegmentCalculation.app_bonus
      = some 250 := by
  have hd : Airline.distanceOf c2Org c2Dst = some ((1001 : ℚ) : ℝ) := by
    simp [Airline.distanceOf, c2Org, c2Dst, List.lookup, pyOrD]
  have h := c2_bonus_cap c2Air c2Org c2Dst c2Brand "K" "014" c2St
    ((1001 : ℚ) : ℝ) (3/2) hd (by norm_num)
    (by simp [resolveRate, c2Air, c2Brand, pyOr, RateVal.pyTruthy, List.lookup])
  rw [h]
  have hmin : min (max (((1001 : ℚ) : ℝ) * ((3/2 : ℚ) : ℝ)) (((0 : ℚ) : ℝ))) ((1001 : ℚ) : ℝ)
      = ((1001 : ℚ) : ℝ) := by
    push_cast
    rw [max_eq_left (by norm_num), min_eq_right (by norm_num)]
  norm_num [c2Air, c2St, hmin, truncToZero]

/-- Concrete airline for the C3 counterexample: the fare-class key K is
present with stored value 0, and the brand-name key Basic holds 1/2. -/
def c3Air : Airline :=
  { id := "x3", name := "X3", region := "", website := "", logo := none,
    star_alliance_member := false, earns_app := true, earns_sqm := true,
    earning_rates := [("K", .num 0), ("Basic", .num (1/2))] }

/-- Concrete fare brand for the C3 counterexample. -/
def c3Brand : FareBrand := ⟨"Basic", []⟩

/-- C3 counterexample: the fare-class key K is present in the table with
stored value 0, yet the resolved rate is the brand value 1/2, not the
stored fare-class value, because the source treats a falsy hit like a
miss. -/
theorem c3_counterexample :
    List.lookup "K" c3Air.earning_rates = some (RateVal.num 0) ∧
    resolveRate c3Air "K" c3Brand.name = RateVal.num (1/2) ∧
    RateVal.num (1/2) ≠ RateVal.num 0 := by
  refine ⟨by simp [c3Air, List.lookup],
    by simp [resolveRate, c3Air, c3Brand, pyOr, RateVal.pyTruthy, List.lookup], ?_⟩
  intro h
  rw [RateVal.num.injEq] at h
  norm_num at h

/-- C3 amended: the stored fare-class value is used when it is a nonzero
number; when the fare-class key is absent or its value is falsy (the
number 0), the fare-brand-name value is used when that key is present; and
when that key is also absent the rate is 0. -/
theorem c3_rate_fallback_amended (a : Airline) (fc : String) (fb : FareBrand) :
    (∀ r : ℚ, r ≠ 0 → List.lookup fc a.earning_rates = some (.num r) →
      resolveRate a fc fb.name = .num r) ∧
    (∀ v : RateVal,
      (List.lookup fc a.earning_rates = none ∨
        List.lookup fc a.earning_rates = some (.num 0)) →
      List.lookup fb.name a.earning_rates = some v →
      resolveRate a fc fb.name = v) ∧
    ((List.lookup fc a.earning_rates = none ∨
        List.lookup fc a.earning_rates = some (.num 0)) →
      List.lookup fb.name a.earning_rates = none →
      resolveRate a fc fb.name = .num 0) := by
  refine ⟨?_, ?_, ?_⟩
  · intro r hr hlk
    simp [resolveRate, hlk, pyOr, RateVal.pyTruthy, hr]
  · intro v hfc hlk
    rcases hfc with h | h <;> simp [resolveRate, h, hlk, pyOr, RateVal.pyTruthy]
  · intro hfc hlk
    rcases hfc with h | h <;> simp [resolveRate, h, hlk, pyOr, RateVal.pyTruthy]

/-- Witness for the C3 amended theorem at the concrete airline of the
counterexample: the zero-valued fare-class hit falls back to the brand
value 1/2. -/
theorem c3_rate_fallback_amended_witness :
    resolveRate c3Air "K" c3Brand.name = RateVal.num (1/2) :=
  (c3_rate_fallback_amended c3Air "K" c3Brand).2.1 (RateVal.num (1/2))
    (Or.inr (by simp [c3Air, List.lookup]))
    (by simp [c3Air, c3Brand, List.lookup])

/-- Concrete origin airport for the C4 counterexample: the record for FFF
has current distance 0 (present) and legacy distance 500. -/
def c4Org : Airport := ⟨"EEE", 0, 0, [("FFF", ⟨"FFF", some 0, some 500⟩)]⟩

/-- Concrete destination airport for the C4 counterexample. -/
def c4Dst : Airport := ⟨"FFF", 10, 10, []⟩

/-- C4 counterexample: the current recorded distance is present (value 0),
yet the resolver returns the legacy distance 500 instead of the current
value, because the source treats a falsy current distance like an absent
one. -/
theorem c4_counterexample :
    (List.lookup "FFF" c4Org.distances).map DistanceRecord.distance = some (some 0) ∧
    Airline.distanceOf c4Org c4Dst = some ((500 : ℚ) : ℝ) ∧
    ((500 : ℚ) : ℝ) ≠ ((0 : ℚ) : ℝ) := by
  refine ⟨by simp [c4Org, List.lookup],
    by simp [Airline.distanceOf, c4Org, c4Dst, List.lookup, pyOrD],
    by norm_num⟩

/-- C4 amended: when a DistanceRecord exists, the resolver returns the
current recorded distance when it is present and nonzero; when the current
distance is absent or zero it returns the legacy distance (absent when
that is also absent); the recorded path always takes precedence over the
haversine computation. -/
theorem c4_recorded_distance_amended (o dst : Airport) (dr : DistanceRecord)
    (h : List.lookup dst.iata_code o.distances = some dr) :
    (∀ q : ℚ, dr.distance = some q → q ≠ 0 →
      Airline.distanceOf o dst = some ((q : ℚ) : ℝ)) ∧
    ((dr.distance = none ∨ dr.distance = some 0) →
      Airline.distanceOf o dst = dr.old_distance.map (fun q => ((q : ℚ) : ℝ))) := by
  constructor
  · intro q hq hq0
    simp [Airline.distanceOf, h, pyOrD, hq, hq0]
  · intro hq
    rcases hq with h0 | h0 <;>
      · simp [Airline.distanceOf, h, pyOrD, h0]
        cases dr.old_distance <;> simp

/-- Concrete origin airport for the C4 witness. -/
def c4wOrg : Airport := ⟨"GGG", 0, 0, [("HHH", ⟨"HHH", some 250, none⟩)]⟩

/-- Concrete destination airport for the C4 witness. -/
def c4wDst : Airport := ⟨"HHH", 1, 1, []⟩

/-- Witness for the C4 amended theorem: a present nonzero recorded
distance of 250 is returned exactly. -/
theorem c4_recorded_distance_amended_witness :
    Airline.distanceOf c4wOrg c4wDst = some ((250 : ℚ) : ℝ) :=
  (c4_recorded_distance_amended c4wOrg c4wDst ⟨"HHH", some 250, none⟩
    (by simp [c4wOrg, c4wDst, List.lookup])).1 250 rfl (by norm_num)

/-- C5: when no DistanceRecord exists for the pair, the resolver returns
exactly the haversine great-circle distance with Earth radius 3959.0
miles, with the formula written as in the spec (degrees converted to
radians, a as a sum of squared sines weighted by the cosines, c twice the
arcsine of the square root); in particular a pair of identical airports
with no self-record resolves to distance 0. -/
theorem c5_haversine_fallback (o dst : Airport)
    (h : List.lookup dst.iata_code o.distances = none) :
    Airline.distanceOf o dst
      = some ((3959.0 : ℝ) * (2 * Real.arcsin (Real.sqrt (
          Real.sin (radians ((dst.latitude : ℝ) - (o.latitude : ℝ)) / 2) ^ 2
          + Real.cos (radians (o.latitude : ℝ)) * Real.cos (radians (dst.latitude : ℝ))
            * Real.sin (radians ((dst.longitude : ℝ) - (o.longitude : ℝ)) / 2) ^ 2))))
    ∧ (o = dst → Airline.distanceOf o dst = some 0) := by
  constructor
  · simp only [Airline.distanceOf, h]
    rw [haversine, EarthRadiusMi]
    ring_nf
  · intro he
    subst he
    simp [Airline.distanceOf, h, haversine, radians, sub_self, Real.arcsin_zero]

/-- Concrete airport for the C5 witness, with no recorded distances. -/
def c5Ap : Airport := ⟨"III", 43, -79, []⟩

/-- Witness for C5: an airport with no self-record resolves to distance 0
against itself. -/
theorem c5_haversine_fallback_witness :
    Airline.distanceOf c5Ap c5Ap = some 0 :=
  (c5_haversine_fallback c5Ap c5Ap (by simp [c5Ap, List.lookup])).2 rfl

/-- Concrete airline for the C6 witness. -/
def c6Air : Airline :=
  { id := "w6", name := "W6", region := "", website := "", logo := none,
    star_alliance_member := false, earns_app := true, earns_sqm := true,
    earning_rates := [("Y", .num 1)] }

/-- Concrete origin airport for the C6 witness: the record carries no
current distance and a legacy distance of 0. -/
def c6Org : Airport := ⟨"JJJ", 0, 0, [("KKK", ⟨"KKK", none, some 0⟩)]⟩

/-- Concrete destination airport for the C6 witness. -/
def c6Dst : Airport := ⟨"KKK", 5, 5, []⟩

/-- Concrete fare brand for the C6 witness. -/
def c6Brand : FareBrand := ⟨"NoBrand", []⟩

/-- Concrete status for the C6 witness. -/
def c6St : AeroplanStatus := ⟨"35K", 1/2, 100⟩

/-- C6: when the resolved distance is falsy (the number 0, or the Python
None produced by a record whose two distances are both absent), the
calculator does not fail: it returns a SegmentCalculation whose points,
bonus, status-miles and rate fields are all zero and whose distance field
is the resolved value. -/
theorem c6_zero_distance_calculation (a : Airline) (o dst : Airport) (fb : FareBrand)
    (fc tn : String) (st : AeroplanStatus)
    (h : Airline.distanceOf o dst = some 0 ∨ Airline.distanceOf o dst = none) :
    a.calculate o dst fb fc tn st
      = some ⟨Airline.distanceOf o dst, 0, .num 0, 0, 0, 0, .num 0⟩ := by
  rcases h with h | h
  · unfold Airline.calculate
    rw [h]
    simp
  · unfold Airline.calculate
    rw [h]

/-- Witness for C6: a legacy recorded distance of 0 yields the all-zero
calculation even though the status floor is 100. -/
theorem c6_zero_distance_calculation_witness :
    c6Air.calculate c6Org c6Dst c6Brand "Y" "014" c6St
      = some ⟨some 0, 0, .num 0, 0, 0, 0, .num 0⟩ := by
  have hd : Airline.distanceOf c6Org c6Dst = some 0 := by
    simp [Airline.distanceOf, c6Org, c6Dst, List.lookup, pyOrD]
  rw [c6_zero_distance_calculation c6Air c6Org c6Dst c6Brand "Y" "014" c6St (Or.inl hd), hd]

/-- Concrete origin airport for the C7 counterexample: the record exists
but both its distances are absent. -/
def c7Org : Airport := ⟨"LLL", 10, 20, [("MMM", ⟨"MMM", none, none⟩)]⟩

/-- Concrete destination airport for the C7 counterexample. -/
def c7Dst : Airport := ⟨"MMM", 30, 40, []⟩

/-- C7 counterexample: with a record present whose current and legacy
distances are both absent, the resolver returns the absent Python None
value, not the haversine distance; it does not fall through to the
haversine computation. -/
theorem c7_counterexample :
    Airline.distanceOf c7Org c7Dst = none ∧
    Airline.distanceOf c7Org c7Dst ≠ some (haversine c7Org c7Dst) := by
  have h : Airline.distanceOf c7Org c7Dst = none := by
    simp [Airline.distanceOf, c7Org, c7Dst, List.lookup, pyOrD]
  exact ⟨h, by simp [h]⟩

/-- C7 amended: when a record exists with both distances absent, the
resolver returns the absent (Python None) distance rather than computing
the haversine fallback, and the segment calculator then produces the
zero-valued calculation with an absent distance field. -/
theorem c7_both_absent_amended (a : Airline) (o dst : Airport) (dr : DistanceRecord)
    (fb : FareBrand) (fc tn : String) (st : AeroplanStatus)
    (h : List.lookup dst.iata_code o.distances = some dr)
    (h1 : dr.distance = none) (h2 : dr.old_distance = none) :
    Airline.distanceOf o dst = none ∧
    a.calculate o dst fb fc tn st = some ⟨none, 0, .num 0, 0, 0, 0, .num 0⟩ := by
  have hd : Airline.distanceOf o dst = none := by
    simp [Airline.distanceOf, h, pyOrD, h1, h2]
  refine ⟨hd, ?_⟩
  unfold Airline.calculate
  rw [hd]

/-- Concrete fixtures for the C7 witness. -/
def c7wAir : Airline :=
  { id := "w7", name := "W7", region := "", website := "", logo := none,
    star_alliance_member := false, earns_app := true, earns_sqm := true,
    earning_rates := [("Q", .num 2)] }

/-- Concrete origin airport for the C7 witness. -/
def c7wOrg : Airport := ⟨"NNN", 1, 2, [("OOO", ⟨"OOO", none, none⟩)]⟩

/-- Concrete destination airport for the C7 witness. -/
def c7wDst : Airport := ⟨"OOO", 3, 4, []⟩

/-- Witness for the C7 amended theorem at concrete fixtures. -/
theorem c7_both_absent_amended_witness :
    Airline.distanceOf c7wOrg c7wDst = none ∧
    c7wAir.calculate c7wOrg c7wDst ⟨"NoBrand", []⟩ "Q" "014" ⟨"50K", 1/2, 0⟩
      = some ⟨none, 0, .num 0, 0, 0, 0, .num 0⟩ :=
  c7_both_absent_amended c7wAir c7wOrg c7wDst ⟨"OOO", none, none⟩
    ⟨"NoBrand", []⟩ "Q" "014" ⟨"50K", 1/2, 0⟩
    (by simp [c7wOrg, c7wDst, List.lookup]) rfl rfl

/-- C8: totality over the declared data model. When every value of the
earning-rate table is numeric, the segment calculator always returns a
SegmentCalculation (never the error outcome), for every airport pair, fare
class, fare brand, ticket number, and status; the distance resolver is
total by construction. -/
theorem c8_totality (a : Airline) (o dst : Airport) (fb : FareBrand)
    (fc tn : String) (st : AeroplanStatus)
    (hnum : ∀ p ∈ a.earning_rates, ∃ q : ℚ, p.2 = RateVal.num q) :
    ∃ c, a.calculate o dst fb fc tn st = some c := by
  have hres : ∃ q : ℚ, resolveRate a fc fb.name = RateVal.num q := by
    rw [resolveRate]
    rcases hl : List.lookup fc a.earning_rates with _ | v
    · rcases hb : List.lookup fb.name a.earning_rates with _ | w
      · exact ⟨0, by simp [pyOr]⟩
      · obtain ⟨q, hq⟩ := hnum _ (mem_of_lookup_eq_some hb)
        simp only at hq
        exact ⟨q, by simp [pyOr, hq]⟩
    · obtain ⟨q, hq⟩ := hnum _ (mem_of_lookup_eq_some hl)
      simp only at hq
      subst hq
      by_cases h0 : q = 0
      · subst h0
        rcases hb : List.lookup fb.name a.earning_rates with _ | w
        · exact ⟨0, by simp [pyOr, RateVal.pyTruthy]⟩
        · obtain ⟨q2, hq2⟩ := hnum _ (mem_of_lookup_eq_some hb)
          simp only at hq2
          exact ⟨q2, by simp [pyOr, RateVal.pyTruthy, hq2]⟩
      · exact ⟨q, by simp [pyOr, RateVal.pyTruthy, h0]⟩
  obtain ⟨q, hq⟩ := hres
  rcases hd : Airline.distanceOf o dst with _ | d
  · exact ⟨_, by unfold Airline.calculate; rw [hd]⟩
  · by_cases h0 : d = 0
    · subst h0
      exact ⟨⟨some 0, 0, .num 0, 0, 0, 0, .num 0⟩,
        by unfold Airline.calculate; rw [hd]; simp⟩
    · exact ⟨_, calculate_eq_some a o dst fb fc tn st d q hd h0 hq⟩

/-- Concrete airline for the C8 witness. -/
def c8Air : Airline :=
  { id := "w8", name := "W8", region := "", website := "", logo := none,
    star_alliance_member := false, earns_app := true, earns_sqm := false,
    earning_rates := [("Z", .num 1)] }

/-- Concrete origin airport for the C8 witness. -/
def c8Org : Airport := ⟨"PPP", 12, 34, []⟩

/-- Concrete destination airport for the C8 witness. -/
def c8Dst : Airport := ⟨"QQQ", 56, 78, []⟩

/-- Witness for C8 at a concrete numeric-rate airline and an airport pair
that exercises the haversine branch. -/
theorem c8_totality_witness :
    ∃ c, c8Air.calculate c8Org c8Dst ⟨"NoBrand", []⟩ "Z" "014" ⟨"60K", 3/4, 0⟩
      = some c :=
  c8_totality c8Air c8Org c8Dst ⟨"NoBrand", []⟩ "Z" "014" ⟨"60K", 3/4, 0⟩
    (by intro p hp
        simp [c8Air] at hp
        exact ⟨1, by rw [hp]⟩)

/-- Concrete airline for the C9 counterexample. -/
def c9Air : Airline :=
  { id := "x9", name := "X9", region := "", website := "", logo := none,
    star_alliance_member := false, earns_app := true, earns_sqm := true,
    earning_rates := [] }

/-- C9 counterexample: comparing an Airline with the integer 3 produces
the unguarded attribute-access failure (AttributeError) in the source; it
does not return a not-equal result. -/
theorem c9_counterexample :
    c9Air.eqPy (PyVal.int 3) = Except.error "AttributeError" ∧
    c9Air.eqPy (PyVal.int 3) ≠ Except.ok false ∧
    c9Air.eqPy (PyVal.int 3) ≠ Except.ok true := by
  refine ⟨rfl, ?_, ?_⟩ <;> simp [Airline.eqPy, PyVal.idAttr]

/-- C9 amended: equality between two Airline values holds iff their
identity keys match, regardless of the other fields; but comparing an
Airline to a value of an incompatible type with no id attribute (an int
or a str) raises AttributeError through the unguarded attribute access,
rather than returning a not-equal result. -/
theorem c9_equality_amended (a b : Airline) (n : ℤ) (s : String) :
    (a.eqPy (PyVal.airline b) = Except.ok true ↔ a.id = b.id) ∧
    a.eqPy (PyVal.int n) = Except.error "AttributeError" ∧
    a.eqPy (PyVal.str s) = Except.error "AttributeError" := by
  refine ⟨?_, rfl, rfl⟩
  simp [Airline.eqPy, PyVal.idAttr]

/-- Witness for the C9 amended theorem: two airlines differing in every
display field but sharing the key compare equal, and comparison against a
string errors. -/
theorem c9_equality_amended_witness :
    c9Air.eqPy (PyVal.airline
      { id := "x9", name := "Other", region := "r", website := "w", logo := none,
        star_alliance_member := true, earns_app := false, earns_sqm := false,
        earning_rates := [] }) = Except.ok true ∧
    c9Air.eqPy (PyVal.str "x9") = Except.error "AttributeError" := by
  constructor
  · exact (c9_equality_amended c9Air
      { id := "x9", name := "Other", region := "r", website := "w", logo := none,
        star_alliance_member := true, earns_app := false, earns_sqm := false,
        earning_rates := [] } 0 "x9").1.mpr rfl
  · exact (c9_equality_amended c9Air c9Air 0 "x9").2.2

/-- C10: for the shipped Air Canada airline, whose earning-rate table is
keyed by the three region names, every fare class and fare brand name
outside those keys resolves to rate 0 under the flat two-key lookup, and
hence every Air Canada segment with a nonzero resolved distance earns
points and status miles equal to the truncation toward zero of the status
minimum earning floor (0 when the floor is 0). -/
theorem c10_aircanada_floor (fc : String) (fb : FareBrand)
    (hfc : fc ∉ regionKeys) (hfb : fb.name ∉ regionKeys)
    (o dst : Airport) (tn : String) (st : AeroplanStatus) (d : ℝ)
    (hd : Airline.distanceOf o dst = some d) (hd0 : d ≠ 0)
    (hfl : 0 ≤ st.min_earning_value) :
    resolveRate AirCanada fc fb.name = RateVal.num 0 ∧
    (AirCanada.calculate o dst fb fc tn st).map SegmentCalculation.app
      = some (truncToZero ((st.min_earning_value : ℝ))) ∧
    (AirCanada.calculate o dst fb fc tn st).map SegmentCalculation.sqm
      = some (truncToZero ((st.min_earning_value : ℝ))) := by
  simp only [regionKeys, List.mem_cons, List.not_mem_nil, or_false, not_or] at hfc hfb
  obtain ⟨hf1, hf2, hf3⟩ := hfc
  obtain ⟨hb1, hb2, hb3⟩ := hfb
  have hlc : List.lookup fc AirCanada.earning_rates = none := by
    simp only [AirCanada, List.lookup]
    rw [show (fc == "Domestic") = false by simpa using hf1,
      show (fc == "Transborder") = false by simpa using hf2,
      show (fc == "International") = false by simpa using hf3]
  have hlb : List.lookup fb.name AirCanada.earning_rates = none := by
    simp only [AirCanada, List.lookup]
    rw [show (fb.name == "Domestic") = false by simpa using hb1,
      show (fb.name == "Transborder") = false by simpa using hb2,
      show (fb.name == "International") = false by simpa using hb3]
  have hr : resolveRate AirCanada fc fb.name = RateVal.num 0 := by
    simp [resolveRate, hlc, hlb, pyOr]
  have hmax : max (d * ((0 : ℚ) : ℝ)) ((st.min_earning_value : ℝ))
      = ((st.min_earning_value : ℝ)) := by
    rw [Rat.cast_zero, mul_zero]
    exact max_eq_right (by exact_mod_cast hfl)
  refine ⟨hr, ?_, ?_⟩ <;>
    · rw [calculate_eq_some AirCanada o dst fb fc tn st d 0 hd hd0 hr]
      simp [AirCanada]
      rw [max_eq_right (show (0 : ℝ) ≤ ((st.min_earning_value : ℝ)) by exact_mod_cast hfl)]

/-- Concrete origin airport for the C10 witness. -/
def c10Org : Airport := ⟨"RRR", 0, 0, [("SSS", ⟨"SSS", some 100, none⟩)]⟩

/-- Concrete destination airport for the C10 witness. -/
def c10Dst : Airport := ⟨"SSS", 2, 3, []⟩

/-- Concrete fare brand for the C10 witness: a brand name that is not one
of the three region keys. -/
def c10Brand : FareBrand := ⟨"Basic", []⟩

/-- Concrete status for the C10 witness, with a minimum earning floor of
250 points. -/
def c10St : AeroplanStatus := ⟨"SE100K", 1, 250⟩

/-- Witness for C10: an Air Canada segment of recorded distance 100 in
fare class J earns exactly the floor of 250 points. -/
theorem c10_aircanada_floor_witness :
    (AirCanada.calculate c10Org c10Dst c10Brand "J" "014" c10St).map
      SegmentCalculation.app = some 250 := by
  have hd : Airline.distanceOf c10Org c10Dst = some ((100 : ℚ) : ℝ) := by
    simp [Airline.distanceOf, c10Org, c10Dst, List.lookup, pyOrD]
  have h := (c10_aircanada_floor "J" c10Brand
    (by simp [regionKeys]) (by simp [regionKeys, c10Brand])
    c10Org c10Dst "014" c10St ((100 : ℚ) : ℝ) hd (by norm_num)
    (by norm_num [c10St])).2.1
  rw [h]
  norm_num [c10St, truncToZero]
